import Mathlib

/-!
Shallow embedding of the notification service
(`src/services/notification-service/main.py`): the persistence gateway
(`notifications` table and its SQL statements), the connection registry
(`active_connections`), the Kafka event consumer (`consume_notifications`),
the broadcast engine (`broadcast_to_user`), the WebSocket session handler
(`websocket_endpoint`) and the query API endpoints (`get_notifications`,
`mark_as_read`, `get_unread_count`), together with theorems checking the
design specification against this code.
-/

namespace NotificationService

/-! ## JSON-ish payload dictionaries

`websocket.send_json` sends a Python dict; we model the dict as an ordered
association list of field name to field value. -/

/-- A JSON field value: integer, string, boolean or null. -/
inductive Fv where
  | vi (n : Int)
  | vs (s : String)
  | vb (b : Bool)
  | vnull
deriving DecidableEq, Repr

/-- A JSON object / Python dict, in insertion order. -/
abbrev Dict := List (String × Fv)

/-- Field lookup in a payload dict (first occurrence). -/
def dictGet (d : Dict) (k : String) : Option Fv :=
  match d with
  | [] => none
  | (k', v) :: rest => if k' = k then some v else dictGet rest k

/-! ## Python error outcomes

The Python code can raise `KeyError` (missing dict key / missing mapping
key), `ValueError` (`int()` on a non-numeric string, `list.remove` on an
absent element) and `IndexError` (out-of-range list index). -/

inductive PyError where
  | keyError
  | valueError
  | indexError
deriving DecidableEq, Repr

/-! ## The `notifications` table (Persistence Gateway)

Table `notifications(id PK autoincrement, user_id, type, title, message,
task_id nullable, created_at, read boolean default false)`.  Timestamps are
modelled as naturals (the code always inserts `datetime.utcnow()`). -/

structure Notification where
  id : Int
  user_id : Int
  «type» : String
  title : String
  message : String
  task_id : Option Int
  created_at : Nat
  read : Bool
deriving DecidableEq, Repr

/-- The store: the rows of the `notifications` table plus the
autoincrement counter for the next primary key. -/
structure DB where
  rows : List Notification
  nextId : Int
deriving DecidableEq, Repr

/-- The consumer's INSERT (main.py lines 80-91): the store assigns `id`
(autoincrement) and the row starts with `read = false`; `created_at` is the
insertion-time clock value. -/
def DB.insertNotification (db : DB) (uid : Int) (ty title message : String)
    (task_id : Option Int) (now : Nat) : DB :=
  { rows := db.rows ++
      [{ id := db.nextId, user_id := uid, «type» := ty, title := title,
         message := message, task_id := task_id, created_at := now, read := false }],
    nextId := db.nextId + 1 }

/-- `ORDER BY created_at DESC` as a relation: an earlier output row has a
created_at at least that of a later one. -/
def createdDesc : Notification → Notification → Prop :=
  fun a b => b.created_at ≤ a.created_at

instance : DecidableRel createdDesc :=
  fun a b => inferInstanceAs (Decidable (b.created_at ≤ a.created_at))

instance : IsTotal Notification createdDesc :=
  ⟨fun a b => (Nat.le_total b.created_at a.created_at).imp id id⟩

instance : IsTrans Notification createdDesc :=
  ⟨fun _ _ _ h1 h2 => Nat.le_trans h2 h1⟩

/-- `SELECT ... WHERE user_id = $1 ORDER BY created_at DESC LIMIT $2`
(main.py lines 186-195). -/
def selectUserNewestFirst (rows : List Notification) (uid : Int) (limit : Nat) :
    List Notification :=
  ((rows.filter (fun n => decide (n.user_id = uid))).insertionSort createdDesc).take limit

/-- `SELECT ... WHERE user_id = $1 AND read = false ORDER BY created_at DESC
LIMIT 20` (main.py lines 137-146), the unread replay on connect. -/
def selectUnreadNewestFirst (rows : List Notification) (uid : Int) :
    List Notification :=
  ((rows.filter (fun n => decide (n.user_id = uid) && !n.read)).insertionSort
    createdDesc).take 20

/-- `UPDATE notifications SET read = true WHERE id = $1 AND user_id = $2`
as executed by the WebSocket acknowledgement path (main.py lines 166-169). -/
def wsMarkReadUpdate (rows : List Notification) (nid uid : Int) :
    List Notification :=
  rows.map (fun n => if n.id = nid ∧ n.user_id = uid then { n with read := true } else n)

/-- `UPDATE notifications SET read = true WHERE id = $1 AND user_id = $2`
as executed by the `mark_as_read` endpoint (main.py lines 209-212). -/
def apiMarkReadUpdate (rows : List Notification) (nid uid : Int) :
    List Notification :=
  rows.map (fun n => if n.id = nid ∧ n.user_id = uid then { n with read := true } else n)

/-- `SELECT COUNT(*) FROM notifications WHERE user_id = $1 AND read = false`
(main.py lines 225-228). -/
def unreadCountQuery (rows : List Notification) (uid : Int) : Nat :=
  (rows.filter (fun n => decide (n.user_id = uid) && !n.read)).length

/-! ## The Connection Registry

`active_connections: Dict[int, List[WebSocket]]` (main.py line 30).  A
WebSocket connection is identified by a number; the Python dict is modelled
as an insertion-ordered association list with unique keys. -/

/-- A live WebSocket connection, identified by a number. -/
abbrev Conn := Nat

/-- The `active_connections` mapping: user id to the list of that user's
open WebSocket connections, in dict insertion order. -/
abbrev Registry := List (Int × List Conn)

/-- Dict key lookup `active_connections[user_id]` (first matching key). -/
def lookupUser (reg : Registry) (uid : Int) : Option (List Conn) :=
  match reg with
  | [] => none
  | (u, cs) :: rest => if u = uid then some cs else lookupUser rest uid

/-- Dict key update `active_connections[user_id] = l` for a key already
present: replaces the first matching entry in place. -/
def setUser (reg : Registry) (uid : Int) (l : List Conn) : Registry :=
  match reg with
  | [] => []
  | (u, cs) :: rest => if u = uid then (u, l) :: rest else (u, cs) :: setUser rest uid l

/-- Dict key deletion `del active_connections[user_id]`: removes the first
matching entry. -/
def eraseUser (reg : Registry) (uid : Int) : Registry :=
  match reg with
  | [] => []
  | (u, cs) :: rest => if u = uid then rest else (u, cs) :: eraseUser rest uid

/-- Python `list.remove(x)`: removes the first occurrence of `x`, or
reports failure (`ValueError`) when `x` is absent. -/
def removeFirst (l : List Conn) (c : Conn) : Option (List Conn) :=
  match l with
  | [] => none
  | x :: rest => if x = c then some rest else (removeFirst rest c).map (x :: ·)

/-- Registration on connect (main.py lines 130-132): create the user's
entry on first connect, then append the connection. -/
def register (reg : Registry) (uid : Int) (c : Conn) : Registry :=
  match lookupUser reg uid with
  | none => reg ++ [(uid, [c])]
  | some l => setUser reg uid (l ++ [c])

/-- Deregistration on disconnect (main.py lines 172-174):
`active_connections[user_id].remove(websocket)` — `KeyError` when the user
has no entry, `ValueError` when the connection is not in the list — then
`del active_connections[user_id]` once the list is empty. -/
def deregister (reg : Registry) (uid : Int) (c : Conn) : Except PyError Registry :=
  match lookupUser reg uid with
  | none => .error .keyError
  | some l =>
    match removeFirst l c with
    | none => .error .valueError
    | some l' => .ok (if l' = [] then eraseUser reg uid else setUser reg uid l')

/-- The pruning loop of `broadcast_to_user` (main.py lines 108-109):
`for ws in disconnected: active_connections[user_id].remove(ws)`.  Each
element of `dead` is removed (first occurrence); `dead` is always built
from the same list, so every removal finds its element. -/
def removeEach (l : List Conn) (dead : List Conn) : List Conn :=
  dead.foldl (fun acc c => (removeFirst acc c).getD acc) l

/-- `broadcast_to_user(user_id, notification)` (main.py lines 98-109):
send the payload to each of the user's connections; a failing send
(`alive c = false`) adds the connection to `disconnected`, and after the
send loop each disconnected connection is removed from the user's list.
The emptied entry is NOT deleted from the mapping. Returns the updated
registry and the successful pushes. -/
def broadcast_to_user (reg : Registry) (alive : Conn → Bool) (uid : Int)
    (payload : Dict) : Registry × List (Conn × Dict) :=
  match lookupUser reg uid with
  | none => (reg, [])
  | some conns =>
    let pushes := (conns.filter alive).map (fun c => (c, payload))
    let disconnected := conns.filter (fun c => !alive c)
    (setUser reg uid (removeEach conns disconnected), pushes)

/-! ## Token verification

`verify_token` (main.py lines 50-59): decode the JWT, read the `sub`
claim, convert it with Python `int()`.  JWT decoding itself is an external
collaborator; a token is modelled by its decode outcome. -/

/-- The decoded JWT payload: the `sub` claim, when present. -/
structure JwtPayload where
  sub : Option String
deriving DecidableEq, Repr

/-- Outcome of `jwt.decode`: a payload, or a `JWTError`. -/
inductive Decoded where
  | ok (payload : JwtPayload)
  | jwtError
deriving DecidableEq, Repr

/-- Strip leading and trailing whitespace, as Python `int()` does before
parsing. -/
def stripChars (cs : List Char) : List Char :=
  ((cs.dropWhile Char.isWhitespace).reverse.dropWhile Char.isWhitespace).reverse

/-- Decimal value of a digit string. -/
def digitsVal (cs : List Char) : Nat :=
  cs.foldl (fun acc c => acc * 10 + (c.toNat - 48)) 0

/-- Python `int(s)` on a character list: optional sign followed by a
nonempty run of digits, surrounding whitespace allowed; anything else is a
`ValueError` (`none`). -/
def pyIntChars (cs0 : List Char) : Option Int :=
  match stripChars cs0 with
  | '-' :: ds => if ds ≠ [] ∧ ds.all Char.isDigit then some (-(digitsVal ds : Int)) else none
  | '+' :: ds => if ds ≠ [] ∧ ds.all Char.isDigit then some (digitsVal ds : Int) else none
  | ds => if ds ≠ [] ∧ ds.all Char.isDigit then some (digitsVal ds : Int) else none

/-- Python `int(s)` on a string. -/
def pyInt (s : String) : Option Int := pyIntChars s.data

/-- `verify_token` (main.py lines 50-59): `None` when decoding fails, the
`sub` claim is absent, or `int(sub)` raises; otherwise the numeric user
id. -/
def verify_token (d : Decoded) : Option Int :=
  match d with
  | .jwtError => none
  | .ok payload =>
    match payload.sub with
    | none => none
    | some s => pyInt s

/-- Python truthiness test `if not user_id:` on an `Optional[int]`: falsy
exactly when the value is `None` or `0`. -/
def pyFalsy (o : Option Int) : Bool :=
  match o with
  | none => true
  | some n => n = 0

/-! ## The Event Consumer

`consume_notifications` (main.py lines 62-96): for each message from the
`task-notifications` topic, insert a row built from the required fields
`user_id`, `type`, `title`, `message` (a missing key raises `KeyError`) and
the optional `task_id` (`dict.get`), then broadcast the raw event dict.
There is no per-event exception handling: an exception leaves the
`async for` loop, stops the consumer, and ends the consumer task. -/

/-- An upstream event as deserialized from the topic: each expected key is
present or absent. -/
structure UpstreamEvent where
  user_id : Option Int
  «type» : Option String
  title : Option String
  message : Option String
  task_id : Option Int
deriving DecidableEq, Repr

/-- Python dict subscript `notification[key]`: `KeyError` when the key is
absent. -/
def requireField (o : Option α) : Except PyError α :=
  match o with
  | some v => .ok v
  | none => .error .keyError

/-- The event dict as passed to `websocket.send_json` (main.py line 94):
exactly the keys present in the upstream event, with their values. -/
def eventDict (e : UpstreamEvent) : Dict :=
  (match e.user_id with | some v => [("user_id", Fv.vi v)] | none => []) ++
  (match e.«type» with | some v => [("type", Fv.vs v)] | none => []) ++
  (match e.title with | some v => [("title", Fv.vs v)] | none => []) ++
  (match e.message with | some v => [("message", Fv.vs v)] | none => []) ++
  (match e.task_id with | some v => [("task_id", Fv.vi v)] | none => [])

/-- One iteration of the consumer loop body (main.py lines 74-94): read
the four required fields in INSERT argument order (the first absent one
raises `KeyError`), insert the row, then broadcast the raw event dict to
the addressee's connections. -/
def processEvent (db : DB) (reg : Registry) (alive : Conn → Bool) (now : Nat)
    (e : UpstreamEvent) : Except PyError (DB × Registry × List (Conn × Dict)) :=
  match requireField e.user_id with
  | .error err => .error err
  | .ok uid =>
    match requireField e.«type» with
    | .error err => .error err
    | .ok ty =>
      match requireField e.title with
      | .error err => .error err
      | .ok title =>
        match requireField e.message with
        | .error err => .error err
        | .ok message =>
          .ok (db.insertNotification uid ty title message e.task_id now,
               broadcast_to_user reg alive uid (eventDict e))

/-- Outcome of running the consumer over a finite prefix of the stream:
final store and registry, all pushes in order, the uncaught exception (if
one ended the loop), and the events not consumed. -/
structure ConsumeOutcome where
  db : DB
  reg : Registry
  pushes : List (Conn × Dict)
  error : Option PyError
  remaining : List UpstreamEvent
deriving DecidableEq, Repr

/-- The consumer loop (main.py lines 74-96) over a finite event list:
events are processed sequentially; an uncaught exception stops the loop
(the `finally` merely stops the Kafka consumer), leaving the failing event
and all later ones unconsumed. -/
def consumeEvents (db : DB) (reg : Registry) (alive : Conn → Bool) (now : Nat) :
    List UpstreamEvent → ConsumeOutcome
  | [] => ⟨db, reg, [], none, []⟩
  | e :: rest =>
    match processEvent db reg alive now e with
    | .ok (db', reg', pushes) =>
      let out := consumeEvents db' reg' alive (now + 1) rest
      ⟨out.db, out.reg, pushes ++ out.pushes, out.error, out.remaining⟩
    | .error err => ⟨db, reg, [], some err, e :: rest⟩

/-! ## The Client Session Handler

`websocket_endpoint` (main.py lines 116-174). -/

/-- Python `s.split(':')` on a character list. -/
def splitOnColon (cs : List Char) : List (List Char) :=
  match cs with
  | [] => [[]]
  | c :: rest =>
    if c = ':' then [] :: splitOnColon rest
    else
      match splitOnColon rest with
      | [] => [[c]]
      | g :: gs => (c :: g) :: gs

/-- Python `data.startswith('read:')`. -/
def startsWithRead (cs : List Char) : Bool :=
  "read:".data.isPrefixOf cs

/-- `data.split(':')[1]` then `int(...)` (main.py line 164): the parsed
acknowledgement id, `none` when `int()` would raise `ValueError`. -/
def ackId (cs : List Char) : Option Int :=
  match (splitOnColon cs).get? 1 with
  | none => none
  | some field => pyIntChars field

/-- `datetime.isoformat()` stand-in on the Nat-modelled clock: some
injective string rendering of the timestamp. -/
def isoformat (t : Nat) : String := toString t

/-- The replay payload for one unread notification (main.py lines
149-157): the full row, with `created_at` rendered via `isoformat`. -/
def replayDict (n : Notification) : Dict :=
  [("id", .vi n.id), ("type", .vs n.«type»), ("title", .vs n.title),
   ("message", .vs n.message),
   ("task_id", match n.task_id with | some t => .vi t | none => .vnull),
   ("created_at", .vs (isoformat n.created_at)), ("read", .vb n.read)]

/-- One observable inbound occurrence on the session's receive side:
`receive_text` returns a text frame, or raises `WebSocketDisconnect`. -/
inductive InMsg where
  | text (s : String)
  | disconnect
deriving DecidableEq, Repr

/-- How the handler coroutine ended. -/
inductive SessionEnd where
  /-- Handshake refused before `accept` (close code 1008 with a reason). -/
  | closedBeforeOpen (reason : String)
  /-- Returned normally after handling `WebSocketDisconnect`. -/
  | normalExit
  /-- An uncaught exception escaped the handler. -/
  | raised (e : PyError)
  /-- The finite observation script ended with the loop still blocked in
  `receive_text`. -/
  | stillOpen
deriving DecidableEq, Repr

/-- The receive loop plus the `except WebSocketDisconnect` handler
(main.py lines 159-174).  `WebSocketDisconnect` triggers deregistration;
any other exception (e.g. `ValueError` from `int()` on a malformed
acknowledgement) is uncaught, so it ends the handler with no
deregistration and no registry change. -/
def sessionLoop (uid : Int) (ws : Conn) :
    DB → Registry → List InMsg → DB × Registry × SessionEnd
  | db, reg, [] => (db, reg, .stillOpen)
  | db, reg, .disconnect :: _ =>
    match deregister reg uid ws with
    | .ok reg' => (db, reg', .normalExit)
    | .error e => (db, reg, .raised e)
  | db, reg, .text s :: rest =>
    if startsWithRead s.data then
      match (splitOnColon s.data).get? 1 with
      | none => (db, reg, .raised .indexError)
      | some field =>
        match pyIntChars field with
        | none => (db, reg, .raised .valueError)
        | some nid =>
          sessionLoop uid ws { db with rows := wsMarkReadUpdate db.rows nid uid } reg rest
    else
      sessionLoop uid ws db reg rest

/-- What the session handler produced: final store and registry, the
initial unread replay pushes, and how the coroutine ended. -/
structure SessionResult where
  db : DB
  reg : Registry
  pushes : List (Conn × Dict)
  ending : SessionEnd
deriving DecidableEq, Repr

/-- `websocket_endpoint` (main.py lines 116-174): reject a missing or
falsy-verifying token with a 1008 close; otherwise accept, register the
connection, replay up to 20 unread notifications newest first, then run
the receive loop over the inbound script. -/
def websocket_endpoint (db : DB) (reg : Registry) (ws : Conn)
    (token : Option Decoded) (script : List InMsg) : SessionResult :=
  match token with
  | none => ⟨db, reg, [], .closedBeforeOpen "Token required"⟩
  | some d =>
    match verify_token d with
    | none => ⟨db, reg, [], .closedBeforeOpen "Invalid token"⟩
    | some uid =>
      if uid = 0 then ⟨db, reg, [], .closedBeforeOpen "Invalid token"⟩
      else
        let reg1 := register reg uid ws
        let pushes := (selectUnreadNewestFirst db.rows uid).map (fun n => (ws, replayDict n))
        let (db', reg', ending) := sessionLoop uid ws db reg1 script
        ⟨db', reg', pushes, ending⟩

/-! ## The Query API -/

/-- An HTTP endpoint outcome: a 200 value, or the 401 `Invalid token`
rejection. -/
inductive ApiResult (α : Type) where
  | ok (value : α)
  | unauthorized
deriving DecidableEq, Repr

/-- `GET /api/notifications` (main.py lines 176-197): 401 on a
falsy-verifying token, else the user's notifications newest first capped
by `limit` (FastAPI default 50).  Returns the store alongside to make
read-only-ness explicit. -/
def get_notifications (db : DB) (token : Decoded) (limit : Option Nat) :
    DB × ApiResult (List Notification) :=
  match verify_token token with
  | none => (db, .unauthorized)
  | some uid =>
    if uid = 0 then (db, .unauthorized)
    else (db, .ok (selectUserNewestFirst db.rows uid (limit.getD 50)))

/-- `POST /api/notifications/{id}/read` (main.py lines 199-214): 401 on a
falsy-verifying token, else run the ownership-scoped UPDATE and answer
`{"success": True}` regardless of how many rows matched. -/
def mark_as_read (db : DB) (token : Decoded) (notification_id : Int) :
    DB × ApiResult Bool :=
  match verify_token token with
  | none => (db, .unauthorized)
  | some uid =>
    if uid = 0 then (db, .unauthorized)
    else ({ db with rows := apiMarkReadUpdate db.rows notification_id uid }, .ok true)

/-- `GET /api/notifications/unread-count` (main.py lines 216-230). -/
def get_unread_count (db : DB) (token : Decoded) : DB × ApiResult Nat :=
  match verify_token token with
  | none => (db, .unauthorized)
  | some uid =>
    if uid = 0 then (db, .unauthorized)
    else (db, .ok (unreadCountQuery db.rows uid))

/-! ## Auxiliary notions used by the theorems -/

instance {ε α : Type} [DecidableEq ε] [DecidableEq α] : DecidableEq (Except ε α) :=
  fun a b =>
    match a, b with
    | .error x, .error y =>
      if h : x = y then isTrue (by rw [h]) else isFalse (fun hh => h (by cases hh; rfl))
    | .ok x, .ok y =>
      if h : x = y then isTrue (by rw [h]) else isFalse (fun hh => h (by cases hh; rfl))
    | .error _, .ok _ => isFalse (fun hh => Except.noConfusion hh)
    | .ok _, .error _ => isFalse (fun hh => Except.noConfusion hh)

/-- An upstream event missing at least one of the four required fields. -/
def missingRequired (e : UpstreamEvent) : Prop :=
  e.user_id = none ∨ e.«type» = none ∨ e.title = none ∨ e.message = none

instance (e : UpstreamEvent) : Decidable (missingRequired e) :=
  inferInstanceAs (Decidable (_ ∨ _ ∨ _ ∨ _))

/-- An abstract operation on the Connection Registry, for reasoning about
arbitrary interleavings of the three code paths that touch
`active_connections`. -/
inductive RegOp where
  /-- The connect path (main.py lines 130-132). -/
  | addConn (uid : Int) (c : Conn)
  /-- The disconnect path (main.py lines 171-174). -/
  | dropConn (uid : Int) (c : Conn)
  /-- A broadcast (main.py lines 98-109). -/
  | pushTo (uid : Int) (alive : Conn → Bool) (payload : Dict)

/-- Effect of one registry operation on the mapping.  A raising
deregistration leaves the mapping unchanged (the exception escapes before
any mutation). -/
def applyOp (r : Registry) : RegOp → Registry
  | .addConn uid c => register r uid c
  | .dropConn uid c =>
    match deregister r uid c with
    | .ok r' => r'
    | .error _ => r
  | .pushTo uid alive payload => (broadcast_to_user r alive uid payload).1

/-- Effect of a sequence of registry operations. -/
def applyOps (r : Registry) (ops : List RegOp) : Registry := ops.foldl applyOp r

/-- Total number of occurrences of a connection across all users' lists. -/
def connCount (reg : Registry) (c : Conn) : Nat :=
  (reg.map (fun p => p.2.count c)).sum

/-- Each registration along the sequence uses a connection not currently
present anywhere in the mapping (a fresh WebSocket object). -/
def FreshOps : Registry → List RegOp → Prop
  | _, [] => True
  | r, op :: rest =>
    (∀ uid c, op = .addConn uid c → connCount r c = 0) ∧ FreshOps (applyOp r op) rest

/-- Every connection occurs at most once in the whole mapping (hence in at
most one user's list). -/
def AtMostOnce (r : Registry) : Prop := ∀ c, connCount r c ≤ 1

/-- The mapping holds no entry with an empty connection list. -/
def NoEmpty (r : Registry) : Prop := ∀ p ∈ r, p.2 ≠ []

instance (r : Registry) : Decidable (NoEmpty r) :=
  List.decidableBAll _ r

/-- Concrete fixture: three notifications of user 7, created at times
1 < 2 < 3. -/
def demoT1 : Notification :=
  { id := 1, user_id := 7, «type» := "a", title := "t1", message := "m1",
    task_id := none, created_at := 1, read := false }

def demoT2 : Notification :=
  { id := 2, user_id := 7, «type» := "b", title := "t2", message := "m2",
    task_id := some 4, created_at := 2, read := false }

def demoT3 : Notification :=
  { id := 3, user_id := 7, «type» := "c", title := "t3", message := "m3",
    task_id := none, created_at := 3, read := true }

def demoRows : List Notification := [demoT1, demoT2, demoT3]

/-- Concrete fixture: a well-formed upstream event for user 42. -/
def e42 : UpstreamEvent :=
  { user_id := some 42, «type» := some "task_assigned",
    title := some "New Task Assigned",
    message := some "You have been assigned to task: X", task_id := some 9 }

/-- Concrete fixture: an upstream event missing the required `title`. -/
def eNoTitle : UpstreamEvent :=
  { user_id := some 42, «type» := some "task_assigned", title := none,
    message := some "m", task_id := none }

/-! ## C1: malformed upstream events -/

/-- C1 (counterexample): an event missing the required `title`, followed
by a well-formed event.  The consumer stops with an uncaught `KeyError`:
the malformed event is not skipped, and the well-formed event behind it is
never consumed or persisted — contradicting "logs and skips that event …
and continues consuming subsequent events … never fatal". -/
theorem consumer_malformed_not_skipped_cex :
    (consumeEvents ⟨[], 1⟩ [] (fun _ => true) 0 [eNoTitle, e42]).error =
      some PyError.keyError ∧
    (consumeEvents ⟨[], 1⟩ [] (fun _ => true) 0 [eNoTitle, e42]).remaining =
      [eNoTitle, e42] ∧
    (consumeEvents ⟨[], 1⟩ [] (fun _ => true) 0 [eNoTitle, e42]).db.rows = [] := by
  decide

/-- C1 (amended): an upstream event missing a required field raises an
uncaught `KeyError` that is fatal to the consumer loop: the malformed
event is neither persisted nor retried, nothing is pushed, and no
subsequent event is consumed. -/
theorem consumer_malformed_fatal (db : DB) (reg : Registry) (alive : Conn → Bool)
    (now : Nat) (e : UpstreamEvent) (rest : List UpstreamEvent)
    (h : missingRequired e) :
    (consumeEvents db reg alive now (e :: rest)).error = some PyError.keyError ∧
    (consumeEvents db reg alive now (e :: rest)).db = db ∧
    (consumeEvents db reg alive now (e :: rest)).reg = reg ∧
    (consumeEvents db reg alive now (e :: rest)).pushes = [] ∧
    (consumeEvents db reg alive now (e :: rest)).remaining = e :: rest := by
  have hpe : processEvent db reg alive now e = .error PyError.keyError := by
    rcases h with h | h | h | h
    · simp [processEvent, h, requireField]
    · cases hu : e.user_id <;> simp [processEvent, hu, h, requireField]
    · cases hu : e.user_id <;> cases ht : e.«type» <;>
        simp [processEvent, hu, ht, h, requireField]
    · cases hu : e.user_id <;> cases ht : e.«type» <;> cases hti : e.title <;>
        simp [processEvent, hu, ht, hti, h, requireField]
  refine ⟨?_, ?_, ?_, ?_, ?_⟩ <;> simp [consumeEvents, hpe]

/-- C1 witness: the amended theorem at the concrete malformed event. -/
theorem consumer_malformed_fatal_witness :
    missingRequired eNoTitle ∧
    (consumeEvents ⟨[], 1⟩ [] (fun _ => true) 0 [eNoTitle, e42]).db = ⟨[], 1⟩ :=
  ⟨by decide,
   (consumer_malformed_fatal ⟨[], 1⟩ [] (fun _ => true) 0 eNoTitle [e42]
      (by decide)).2.1⟩

/-! ## C2: what payload the broadcast receives -/

/-- C2 (counterexample): a well-formed event consumed while user 42 has
one live connection.  The payload pushed to that connection is the raw
upstream event dict: it has no `id`, no `created_at` and no `read` field,
even though a row was persisted — contradicting "every payload pushed to a
live connection is the full Notification record containing the
store-assigned id and created_at … and the read flag". -/
theorem broadcast_raw_event_cex :
    (consumeEvents ⟨[], 1⟩ [(42, [7])] (fun _ => true) 5 [e42]).pushes =
      [(7, eventDict e42)] ∧
    dictGet (eventDict e42) "id" = none ∧
    dictGet (eventDict e42) "created_at" = none ∧
    dictGet (eventDict e42) "read" = none ∧
    (consumeEvents ⟨[], 1⟩ [(42, [7])] (fun _ => true) 5 [e42]).db.rows ≠ [] := by
  decide

/-- C2 (amended): for a well-formed upstream event the consumer persists a
new row and then broadcasts, but the broadcast is invoked with the raw
upstream event dict, not the persisted record: every pushed payload equals
the raw event dict, which contains no `id`, `created_at` or `read`
field. -/
theorem consumer_broadcasts_raw_event (db : DB) (reg : Registry)
    (alive : Conn → Bool) (now : Nat) (e : UpstreamEvent) (uid : Int)
    (ty title message : String) (h1 : e.user_id = some uid)
    (h2 : e.«type» = some ty) (h3 : e.title = some title)
    (h4 : e.message = some message) :
    processEvent db reg alive now e =
      .ok (db.insertNotification uid ty title message e.task_id now,
           broadcast_to_user reg alive uid (eventDict e)) ∧
    (∀ pr ∈ (broadcast_to_user reg alive uid (eventDict e)).2,
      pr.2 = eventDict e) ∧
    dictGet (eventDict e) "id" = none ∧
    dictGet (eventDict e) "created_at" = none ∧
    dictGet (eventDict e) "read" = none := by
  refine ⟨?_, ?_, ?_, ?_, ?_⟩
  · simp [processEvent, h1, h2, h3, h4, requireField]
  · intro pr hpr
    unfold broadcast_to_user at hpr
    cases hl : lookupUser reg uid with
    | none => rw [hl] at hpr; simp at hpr
    | some conns =>
      rw [hl] at hpr
      simp only [List.mem_map] at hpr
      obtain ⟨c, _, hc⟩ := hpr
      rw [← hc]
  · cases ht : e.task_id <;>
      simp [eventDict, dictGet, h1, h2, h3, h4, ht]
  · cases ht : e.task_id <;>
      simp [eventDict, dictGet, h1, h2, h3, h4, ht]
  · cases ht : e.task_id <;>
      simp [eventDict, dictGet, h1, h2, h3, h4, ht]

/-- C2 witness: the amended theorem at the concrete well-formed event. -/
theorem consumer_broadcasts_raw_event_witness :
    processEvent ⟨[], 1⟩ [(42, [7])] (fun _ => true) 5 e42 =
      .ok ((DB.mk [] 1).insertNotification 42 "task_assigned"
             "New Task Assigned" "You have been assigned to task: X"
             e42.task_id 5,
           broadcast_to_user [(42, [7])] (fun _ => true) 42 (eventDict e42)) :=
  (consumer_broadcasts_raw_event ⟨[], 1⟩ [(42, [7])] (fun _ => true) 5 e42 42
    "task_assigned" "New Task Assigned" "You have been assigned to task: X"
    (by decide) (by decide) (by decide) (by decide)).1

/-! ## C5: deregistering an absent connection -/

/-- `list.remove` on a list not containing the element fails
(`ValueError`). -/
theorem removeFirst_eq_none {l : List Conn} {c : Conn} (h : c ∉ l) :
    removeFirst l c = none := by
  induction l with
  | nil => rfl
  | cons x rest ih =>
    simp only [List.mem_cons, not_or] at h
    rw [removeFirst, if_neg (fun hh => h.1 hh.symm), ih h.2]
    rfl

/-- C5 (counterexample): user 1 registers connection 7; a broadcast finds
it dead and prunes it; the subsequent disconnect-triggered deregister of
the same connection raises `ValueError` (and deregistering under a user
with no entry raises `KeyError`) — contradicting "raises no error …
double-cleanup … is safe". -/
theorem deregister_absent_raises_cex :
    deregister (broadcast_to_user (register [] 1 7) (fun _ => false) 1 []).1 1 7 =
      .error PyError.valueError ∧
    deregister [] 1 7 = .error PyError.keyError := by
  decide

/-- C5 (amended): deregistering a connection that is not present raises —
`KeyError` when the user has no mapping entry, `ValueError` when the
user's list does not contain the connection — and the raising path leaves
the registry unchanged (the exception escapes the disconnect handler), so
double-cleanup after broadcast pruning is not safe. -/
theorem deregister_absent_raises (reg : Registry) (uid : Int) (c : Conn) :
    (lookupUser reg uid = none → deregister reg uid c = .error PyError.keyError) ∧
    (∀ l, lookupUser reg uid = some l → c ∉ l →
      deregister reg uid c = .error PyError.valueError) ∧
    (∀ err (db : DB), deregister reg uid c = .error err →
      sessionLoop uid c db reg [InMsg.disconnect] = (db, reg, .raised err)) := by
  refine ⟨?_, ?_, ?_⟩
  · intro h
    simp [deregister, h]
  · intro l hl hc
    simp [deregister, hl, removeFirst_eq_none hc]
  · intro err db h
    simp [sessionLoop, h]

/-- C5 witness: the amended theorem at a registry whose user-1 entry does
not contain connection 7. -/
theorem deregister_absent_raises_witness :
    deregister [(1, [5])] 1 7 = .error PyError.valueError :=
  (deregister_absent_raises [(1, [5])] 1 7).2.1 [5] (by decide) (by decide)

/-! ## C7: handling of inbound messages -/

/-- C7 (counterexample): the message `read:abc` is not of the literal form
`read:<integer>`, yet the handler raises `ValueError` and the session
terminates (first conjunct); the message `read:2:99` is not of that
literal form either, yet it writes to the store, marking row 2 as read
(second conjunct) — contradicting "ignores the message, performs no store
write, and does not terminate the connection". -/
theorem malformed_ack_terminates_cex :
    sessionLoop 1 7 ⟨[], 1⟩ [(1, [7])] [.text "read:abc"] =
      (⟨[], 1⟩, [(1, [7])], .raised PyError.valueError) ∧
    sessionLoop 7 9 ⟨[demoT2], 3⟩ [(7, [9])] [.text "read:2:99"] =
      (⟨[{ demoT2 with read := true }], 3⟩, [(7, [9])], .stillOpen) := by
  decide

/-- C7 (amended): every inbound message that does not start with the
prefix `read:` is ignored: no store write, no registry change, no
termination — the loop simply continues with the rest of the script. -/
theorem non_read_prefix_ignored (uid : Int) (ws : Conn) (db : DB)
    (reg : Registry) (s : String) (rest : List InMsg)
    (h : startsWithRead s.data = false) :
    sessionLoop uid ws db reg (.text s :: rest) = sessionLoop uid ws db reg rest := by
  simp [sessionLoop, h]

/-- C7 witness: the amended theorem at the concrete message `hello`. -/
theorem non_read_prefix_ignored_witness :
    sessionLoop 1 7 ⟨[], 1⟩ [] [.text "hello"] = sessionLoop 1 7 ⟨[], 1⟩ [] [] :=
  non_read_prefix_ignored 1 7 ⟨[], 1⟩ [] "hello" [] (by decide)

/-! ## C6: mark-as-read is ownership-scoped and always succeeds -/

/-- A map whose function fixes every element of the list is the
identity. -/
theorem list_map_eq_self {α : Type} {l : List α} {f : α → α}
    (h : ∀ a ∈ l, f a = a) : l.map f = l := by
  induction l with
  | nil => rfl
  | cons x xs ih =>
    rw [List.map_cons, h x (List.mem_cons_self x xs),
      ih (fun a ha => h a (List.mem_cons_of_mem x ha))]

/-- Setting `read = true` on an already-read row changes nothing. -/
theorem set_read_eq_self {n : Notification} (h : n.read = true) :
    { n with read := true } = n := by
  cases n
  simp_all

/-- C6: `mark_as_read` reports success unconditionally; the store is
updated pointwise, flipping `read` to true exactly on rows matching both
the notification id and the calling user; when no row matches (missing or
foreign-owned id) the store is unchanged, and likewise when every matching
row is already read. -/
theorem mark_as_read_ownership_scoped (db : DB) (tok : Decoded) (nid uid : Int)
    (hauth : verify_token tok = some uid) (h0 : uid ≠ 0) :
    (mark_as_read db tok nid).2 = ApiResult.ok true ∧
    ((mark_as_read db tok nid).1).rows.length = db.rows.length ∧
    (∀ i : Fin db.rows.length,
      ((mark_as_read db tok nid).1).rows[(i : Nat)]? =
        some (if (db.rows.get i).id = nid ∧ (db.rows.get i).user_id = uid
              then { db.rows.get i with read := true } else db.rows.get i)) ∧
    ((∀ n ∈ db.rows, ¬(n.id = nid ∧ n.user_id = uid)) →
      (mark_as_read db tok nid).1 = db) ∧
    ((∀ n ∈ db.rows, n.id = nid → n.user_id = uid → n.read = true) →
      (mark_as_read db tok nid).1 = db) := by
  have hm : mark_as_read db tok nid =
      ({ db with rows := apiMarkReadUpdate db.rows nid uid }, .ok true) := by
    simp [mark_as_read, hauth, h0]
  rw [hm]
  refine ⟨rfl, ?_, ?_, ?_, ?_⟩
  · simp [apiMarkReadUpdate]
  · intro i
    simp [apiMarkReadUpdate, List.getElem?_map, List.getElem?_eq_getElem i.isLt,
      List.get_eq_getElem]
  · intro h
    have hupd : apiMarkReadUpdate db.rows nid uid = db.rows :=
      list_map_eq_self (fun n hn => if_neg (h n hn))
    simp only [hupd]
  · intro h
    have hupd : apiMarkReadUpdate db.rows nid uid = db.rows :=
      list_map_eq_self (fun n hn => by
        by_cases hc : n.id = nid ∧ n.user_id = uid
        · rw [if_pos hc]
          exact set_read_eq_self (h n hn hc.1 hc.2)
        · exact if_neg hc)
    simp only [hupd]

/-- C6 witness: foreign-owner acknowledgement — user 2 acknowledges
notification 1, which user 7 owns; the endpoint reports success and the
store (row 1 still unread) is unchanged. -/
theorem mark_as_read_ownership_scoped_witness :
    (mark_as_read ⟨demoRows, 4⟩ (.ok ⟨some "2"⟩) 1).2 = ApiResult.ok true ∧
    (mark_as_read ⟨demoRows, 4⟩ (.ok ⟨some "2"⟩) 1).1 = ⟨demoRows, 4⟩ :=
  ⟨(mark_as_read_ownership_scoped ⟨demoRows, 4⟩ (.ok ⟨some "2"⟩) 1 2
      (by decide) (by decide)).1,
   (mark_as_read_ownership_scoped ⟨demoRows, 4⟩ (.ok ⟨some "2"⟩) 1 2
      (by decide) (by decide)).2.2.2.1 (by decide)⟩

/-! ## C8: listing notifications -/

/-- C8: `get_notifications` performs no write (the store comes back
unchanged), returns exactly the `LIMIT`-capped newest-first selection of
the caller's rows, defaults the limit to 50, and on the t1 < t2 < t3
fixture with limit 1 returns only the t3 record. -/
theorem list_notifications_newest_first (db : DB) (tok : Decoded) (uid : Int)
    (limit : Nat) (hauth : verify_token tok = some uid) (h0 : uid ≠ 0) :
    (get_notifications db tok (some limit)).1 = db ∧
    (get_notifications db tok (some limit)).2 =
      ApiResult.ok (selectUserNewestFirst db.rows uid limit) ∧
    get_notifications db tok none = get_notifications db tok (some 50) ∧
    (selectUserNewestFirst db.rows uid limit).length ≤ limit ∧
    List.Sorted createdDesc (selectUserNewestFirst db.rows uid limit) ∧
    (∀ n ∈ selectUserNewestFirst db.rows uid limit,
      n.user_id = uid ∧ n ∈ db.rows) ∧
    ((db.rows.filter (fun n => decide (n.user_id = uid))).length ≤ limit →
      (selectUserNewestFirst db.rows uid limit).Perm
        (db.rows.filter (fun n => decide (n.user_id = uid)))) ∧
    selectUserNewestFirst demoRows 7 1 = [demoT3] := by
  have hg : get_notifications db tok (some limit) =
      (db, .ok (selectUserNewestFirst db.rows uid limit)) := by
    simp [get_notifications, hauth, h0]
  have hsorted : List.Sorted createdDesc
      ((db.rows.filter (fun n => decide (n.user_id = uid))).insertionSort
        createdDesc) :=
    List.sorted_insertionSort createdDesc _
  have hperm :=
    List.perm_insertionSort createdDesc
      (db.rows.filter (fun n => decide (n.user_id = uid)))
  refine ⟨by rw [hg], by rw [hg], ?_, ?_, ?_, ?_, ?_, by decide⟩
  · simp [get_notifications, hauth, h0]
  · rw [selectUserNewestFirst, List.length_take]
    exact min_le_left _ _
  · exact List.Pairwise.sublist (List.take_sublist _ _) hsorted
  · intro n hn
    have hmem : n ∈ db.rows.filter (fun n => decide (n.user_id = uid)) :=
      hperm.mem_iff.mp ((List.take_sublist _ _).subset hn)
    have := List.mem_filter.mp hmem
    exact ⟨of_decide_eq_true this.2, this.1⟩
  · intro hlen
    rw [selectUserNewestFirst,
      List.take_of_length_le (le_trans (le_of_eq hperm.length_eq) hlen)]
    exact hperm

/-- C8 witness: the theorem at the concrete store `demoRows` for user 7
with limit 2. -/
theorem list_notifications_newest_first_witness :
    (get_notifications ⟨demoRows, 4⟩ (.ok ⟨some "7"⟩) (some 2)).1 =
      ⟨demoRows, 4⟩ :=
  (list_notifications_newest_first ⟨demoRows, 4⟩ (.ok ⟨some "7"⟩) 7 2
    (by decide) (by decide)).1

/-! ## C9: user id 0 can never authenticate -/

/-- C9: a correctly decoded credential whose subject is the string `0`
verifies to the integer 0, and the Python falsy check then rejects it
everywhere: the WebSocket handshake closes with reason `Invalid token`
(nothing registered, nothing replayed), and all three Query API endpoints
answer 401 leaving the store untouched. -/
theorem zero_user_id_never_authenticates (p : JwtPayload)
    (hsub : p.sub = some "0") (db : DB) (reg : Registry) (ws : Conn)
    (script : List InMsg) (nid : Int) (limit : Option Nat) :
    verify_token (.ok p) = some 0 ∧
    websocket_endpoint db reg ws (some (.ok p)) script =
      ⟨db, reg, [], .closedBeforeOpen "Invalid token"⟩ ∧
    get_notifications db (.ok p) limit = (db, .unauthorized) ∧
    mark_as_read db (.ok p) nid = (db, .unauthorized) ∧
    get_unread_count db (.ok p) = (db, .unauthorized) := by
  have hv : verify_token (Decoded.ok p) = some 0 := by
    simp only [verify_token, hsub]
    decide
  refine ⟨hv, ?_, ?_, ?_, ?_⟩
  · simp [websocket_endpoint, hv]
  · simp [get_notifications, hv]
  · simp [mark_as_read, hv]
  · simp [get_unread_count, hv]

/-- C9 witness: the theorem at the concrete payload with subject `0`. -/
theorem zero_user_id_never_authenticates_witness :
    verify_token (.ok ⟨some "0"⟩) = some 0 ∧
    websocket_endpoint ⟨demoRows, 4⟩ [] 7 (some (.ok ⟨some "0"⟩)) [] =
      ⟨⟨demoRows, 4⟩, [], [], .closedBeforeOpen "Invalid token"⟩ :=
  ⟨(zero_user_id_never_authenticates ⟨some "0"⟩ (by decide) ⟨demoRows, 4⟩ [] 7
      [] 0 none).1,
   (zero_user_id_never_authenticates ⟨some "0"⟩ (by decide) ⟨demoRows, 4⟩ [] 7
      [] 0 none).2.1⟩

/-! ## C10: the two acknowledgement paths coincide -/

/-- C10: the WebSocket acknowledgement path and the `mark_as_read`
endpoint run the identical single-row update scoped to
`(notification_id, user_id)`: the two update functions are equal, and
processing an inbound `read:<id>` message transforms the store exactly as
the endpoint's update does. -/
theorem ack_paths_equivalent :
    (∀ (rows : List Notification) (nid uid : Int),
      wsMarkReadUpdate rows nid uid = apiMarkReadUpdate rows nid uid) ∧
    (∀ (uid : Int) (ws : Conn) (db : DB) (reg : Registry) (s : String)
      (rest : List InMsg) (nid : Int),
      startsWithRead s.data = true → ackId s.data = some nid →
      sessionLoop uid ws db reg (.text s :: rest) =
        sessionLoop uid ws { db with rows := apiMarkReadUpdate db.rows nid uid }
          reg rest) := by
  have heq : ∀ (rows : List Notification) (nid uid : Int),
      wsMarkReadUpdate rows nid uid = apiMarkReadUpdate rows nid uid :=
    fun _ _ _ => rfl
  refine ⟨heq, ?_⟩
  intro uid ws db reg s rest nid h1 h2
  cases hf : (splitOnColon s.data).get? 1 with
  | none => rw [ackId, hf] at h2; exact Option.noConfusion h2
  | some field =>
    rw [ackId, hf] at h2
    have h2' : pyIntChars field = some nid := h2
    rw [sessionLoop, hf]
    simp only [h1, if_true, h2', heq]

/-- C10 witness: the second part at the concrete message `read:2` from
user 7, marking row 2 of the fixture store. -/
theorem ack_paths_equivalent_witness :
    sessionLoop 7 9 ⟨demoRows, 4⟩ [] [.text "read:2"] =
      sessionLoop 7 9 ⟨apiMarkReadUpdate demoRows 2 7, 4⟩ [] [] :=
  ack_paths_equivalent.2 7 9 ⟨demoRows, 4⟩ [] "read:2" [] 2 (by decide)
    (by decide)

/-! ## Counting connections in the registry (toolbox for C3 and C4) -/

/-- `removeFirst` is Python `list.remove`: on success the result is
`l.erase c` and the element was present. -/
theorem removeFirst_eq_erase {l l' : List Conn} {c : Conn}
    (h : removeFirst l c = some l') : l' = l.erase c ∧ c ∈ l := by
  induction l generalizing l' with
  | nil => exact Option.noConfusion h
  | cons y rest ih =>
    rw [removeFirst] at h
    by_cases hy : y = c
    · rw [if_pos hy] at h
      injection h with h
      subst h
      subst hy
      refine ⟨?_, List.mem_cons_self _ _⟩
      rw [List.erase_cons, if_pos (by simp)]
    · rw [if_neg hy] at h
      cases hrem : removeFirst rest c with
      | none => rw [hrem] at h; exact Option.noConfusion h
      | some r2 =>
        rw [hrem] at h
        injection h with h
        subst h
        obtain ⟨h1, h2⟩ := ih hrem
        refine ⟨?_, List.mem_cons_of_mem _ h2⟩
        rw [List.erase_cons, if_neg (by simp [hy]), h1]

/-- Removing one occurrence decrements the count of the removed
connection by one and fixes every other count. -/
theorem removeFirst_count {l l' : List Conn} {c : Conn}
    (h : removeFirst l c = some l') (x : Conn) :
    l'.count x + (if x = c then 1 else 0) = l.count x := by
  obtain ⟨h1, h2⟩ := removeFirst_eq_erase h
  subst h1
  by_cases hx : x = c
  · subst hx
    rw [if_pos rfl, List.count_erase_self]
    have : 1 ≤ l.count x := List.one_le_count_iff.mpr h2
    omega
  · rw [if_neg hx, List.count_erase_of_ne hx]
    omega

/-- Broadcast pruning never increases any connection count. -/
theorem removeEach_count_le (dead : List Conn) (l : List Conn) (x : Conn) :
    (removeEach l dead).count x ≤ l.count x := by
  induction dead generalizing l with
  | nil => exact le_refl _
  | cons d ds ih =>
    have hstep : ((removeFirst l d).getD l).count x ≤ l.count x := by
      cases hr : removeFirst l d with
      | none => exact le_refl _
      | some l2 =>
        have hc := removeFirst_count hr x
        show l2.count x ≤ l.count x
        omega
    calc (removeEach l (d :: ds)).count x
        = (removeEach ((removeFirst l d).getD l) ds).count x := rfl
      _ ≤ ((removeFirst l d).getD l).count x := ih _
      _ ≤ l.count x := hstep

theorem connCount_nil (x : Conn) : connCount [] x = 0 := rfl

theorem connCount_cons (u : Int) (cs : List Conn) (rest : Registry) (x : Conn) :
    connCount ((u, cs) :: rest) x = cs.count x + connCount rest x := by
  simp [connCount]

theorem connCount_append (a b : Registry) (x : Conn) :
    connCount (a ++ b) x = connCount a x + connCount b x := by
  simp [connCount]

/-- Replacing the list stored under a present key exchanges its
contribution to the total count. -/
theorem connCount_setUser {reg : Registry} {uid : Int} {l : List Conn}
    (h : lookupUser reg uid = some l) (l2 : List Conn) (x : Conn) :
    l.count x + connCount (setUser reg uid l2) x = l2.count x + connCount reg x := by
  induction reg with
  | nil => exact Option.noConfusion h
  | cons q rest ih =>
    obtain ⟨u, cs⟩ := q
    simp only [lookupUser] at h
    by_cases hu : u = uid
    · rw [if_pos hu] at h
      injection h with h
      subst h
      simp only [setUser, if_pos hu, connCount_cons]
      omega
    · rw [if_neg hu] at h
      simp only [setUser, if_neg hu, connCount_cons]
      have := ih h
      omega

/-- Deleting a present key removes exactly its contribution. -/
theorem connCount_eraseUser {reg : Registry} {uid : Int} {l : List Conn}
    (h : lookupUser reg uid = some l) (x : Conn) :
    l.count x + connCount (eraseUser reg uid) x = connCount reg x := by
  induction reg with
  | nil => exact Option.noConfusion h
  | cons q rest ih =>
    obtain ⟨u, cs⟩ := q
    simp only [lookupUser] at h
    by_cases hu : u = uid
    · rw [if_pos hu] at h
      injection h with h
      subst h
      simp only [eraseUser, if_pos hu, connCount_cons]
    · rw [if_neg hu] at h
      simp only [eraseUser, if_neg hu, connCount_cons]
      have := ih h
      omega

/-- Registration adds exactly one occurrence of the new connection. -/
theorem connCount_register (reg : Registry) (uid : Int) (c : Conn) (x : Conn) :
    connCount (register reg uid c) x =
      connCount reg x + (if x = c then 1 else 0) := by
  cases hl : lookupUser reg uid with
  | none =>
    have hreg : register reg uid c = reg ++ [(uid, [c])] := by
      rw [register, hl]
    rw [hreg, connCount_append, connCount_cons, connCount_nil]
    by_cases hx : x = c
    · subst hx; simp
    · simp [hx, Ne.symm hx]
  | some l =>
    have hreg : register reg uid c = setUser reg uid (l ++ [c]) := by
      rw [register, hl]
    rw [hreg]
    have hs := connCount_setUser hl (l ++ [c]) x
    rw [List.count_append] at hs
    by_cases hx : x = c
    · subst hx
      rw [if_pos rfl]
      have h1 : List.count x [x] = 1 := by simp
      omega
    · rw [if_neg hx]
      have h1 : List.count x [c] = 0 := by simp [hx]
      omega

/-- A succeeding deregistration removes exactly one occurrence of the
deregistered connection. -/
theorem connCount_deregister {reg reg' : Registry} {uid : Int} {c : Conn}
    (h : deregister reg uid c = .ok reg') (x : Conn) :
    connCount reg' x + (if x = c then 1 else 0) = connCount reg x := by
  cases hl : lookupUser reg uid with
  | none =>
    simp only [deregister, hl] at h
    exact Except.noConfusion h
  | some l =>
    cases hr : removeFirst l c with
    | none =>
      simp only [deregister, hl, hr] at h
      exact Except.noConfusion h
    | some l2 =>
      simp only [deregister, hl, hr, Except.ok.injEq] at h
      subst h
      have hcnt := removeFirst_count hr x
      by_cases hnil : l2 = []
      · rw [if_pos hnil]
        have he := connCount_eraseUser hl x
        subst hnil
        simp only [List.count_nil] at hcnt
        omega
      · rw [if_neg hnil]
        have hs := connCount_setUser hl l2 x
        omega

/-- Broadcasting never increases any connection count. -/
theorem connCount_broadcast_le (reg : Registry) (alive : Conn → Bool) (uid : Int)
    (payload : Dict) (x : Conn) :
    connCount ((broadcast_to_user reg alive uid payload).1) x ≤ connCount reg x := by
  rw [broadcast_to_user]
  cases hl : lookupUser reg uid with
  | none => exact le_refl _
  | some conns =>
    show connCount
        (setUser reg uid (removeEach conns (conns.filter (fun c => !alive c)))) x ≤
      connCount reg x
    have hle := removeEach_count_le (conns.filter (fun c => !alive c)) conns x
    have hs :=
      connCount_setUser hl (removeEach conns (conns.filter (fun c => !alive c))) x
    omega

/-- Any single registry operation preserves the at-most-once invariant,
provided a registration only ever adds a fresh connection. -/
theorem atMostOnce_applyOp {r : Registry} {op : RegOp} (h : AtMostOnce r)
    (hf : ∀ uid c, op = .addConn uid c → connCount r c = 0) :
    AtMostOnce (applyOp r op) := by
  cases op with
  | addConn uid c =>
    intro x
    rw [applyOp, connCount_register]
    by_cases hx : x = c
    · subst hx
      rw [hf uid x rfl, if_pos rfl]
    · rw [if_neg hx]
      have := h x
      omega
  | dropConn uid c =>
    intro x
    rw [applyOp]
    cases hd : deregister r uid c with
    | ok r2 =>
      show connCount r2 x ≤ 1
      have h1 := connCount_deregister hd x
      have h2 := h x
      omega
    | error e => exact h x
  | pushTo uid alive payload =>
    intro x
    exact le_trans (connCount_broadcast_le r alive uid payload x) (h x)

/-- A whole operation sequence with fresh registrations preserves the
at-most-once invariant. -/
theorem atMostOnce_applyOps {r : Registry} {ops : List RegOp} (h : AtMostOnce r)
    (hf : FreshOps r ops) : AtMostOnce (applyOps r ops) := by
  induction ops generalizing r with
  | nil => exact h
  | cons op rest ih =>
    rw [FreshOps] at hf
    exact ih (atMostOnce_applyOp h hf.1) hf.2

/-- Entries of `setUser` are old entries or carry the new list. -/
theorem mem_setUser {reg : Registry} {uid : Int} {l2 : List Conn}
    {p : Int × List Conn} (h : p ∈ setUser reg uid l2) : p ∈ reg ∨ p.2 = l2 := by
  induction reg with
  | nil => simp [setUser] at h
  | cons q rest ih =>
    obtain ⟨u, cs⟩ := q
    simp only [setUser] at h
    by_cases hu : u = uid
    · rw [if_pos hu] at h
      rcases List.mem_cons.mp h with h | h
      · right; rw [h]
      · left; exact List.mem_cons_of_mem _ h
    · rw [if_neg hu] at h
      rcases List.mem_cons.mp h with h | h
      · left; rw [h]; exact List.mem_cons_self _ _
      · rcases ih h with h | h
        · left; exact List.mem_cons_of_mem _ h
        · right; exact h

/-- Entries of `eraseUser` are old entries. -/
theorem mem_eraseUser {reg : Registry} {uid : Int} {p : Int × List Conn}
    (h : p ∈ eraseUser reg uid) : p ∈ reg := by
  induction reg with
  | nil => simp [eraseUser] at h
  | cons q rest ih =>
    obtain ⟨u, cs⟩ := q
    simp only [eraseUser] at h
    by_cases hu : u = uid
    · rw [if_pos hu] at h
      exact List.mem_cons_of_mem _ h
    · rw [if_neg hu] at h
      rcases List.mem_cons.mp h with h | h
      · rw [h]; exact List.mem_cons_self _ _
      · exact List.mem_cons_of_mem _ (ih h)

/-- Entries of `register` are old entries or end with the new
connection. -/
theorem mem_register {reg : Registry} {uid : Int} {c : Conn}
    {p : Int × List Conn} (h : p ∈ register reg uid c) :
    p ∈ reg ∨ ∃ l, p.2 = l ++ [c] := by
  rw [register] at h
  cases hl : lookupUser reg uid with
  | none =>
    rw [hl] at h
    rcases List.mem_append.mp h with h | h
    · exact Or.inl h
    · right
      refine ⟨[], ?_⟩
      rw [List.mem_singleton.mp h]
      rfl
  | some l =>
    rw [hl] at h
    rcases mem_setUser h with h | h
    · exact Or.inl h
    · exact Or.inr ⟨l, h⟩

/-- Registration never creates an empty entry. -/
theorem noEmpty_register {reg : Registry} {uid : Int} {c : Conn}
    (h : NoEmpty reg) : NoEmpty (register reg uid c) := by
  intro p hp
  rcases mem_register hp with hm | ⟨l, hl⟩
  · exact h p hm
  · rw [hl]
    simp

/-- A succeeding deregistration never leaves an empty entry behind (the
emptied entry is deleted). -/
theorem noEmpty_deregister {reg reg' : Registry} {uid : Int} {c : Conn}
    (hd : deregister reg uid c = .ok reg') (h : NoEmpty reg) : NoEmpty reg' := by
  cases hl : lookupUser reg uid with
  | none =>
    simp only [deregister, hl] at hd
    exact Except.noConfusion hd
  | some l =>
    cases hr : removeFirst l c with
    | none =>
      simp only [deregister, hl, hr] at hd
      exact Except.noConfusion hd
    | some l2 =>
      simp only [deregister, hl, hr, Except.ok.injEq] at hd
      subst hd
      by_cases hnil : l2 = []
      · rw [if_pos hnil]
        exact fun p hp => h p (mem_eraseUser hp)
      · rw [if_neg hnil]
        intro p hp
        rcases mem_setUser hp with hm | hm
        · exact h p hm
        · rw [hm]; exact hnil

/-! ## C3: registry invariants across operation sequences -/

/-- C3 (counterexample): user 1 registers connection 7; a broadcast finds
it dead and prunes it; the emptied list stays in the mapping as
`[(1, [])]` — contradicting "whenever a user's set becomes empty
(including via broadcast-triggered pruning of dead connections) the
mapping entry for that user is removed entirely, so the registry never
contains an empty set". -/
theorem broadcast_prune_leaves_empty_entry_cex :
    (broadcast_to_user (register [] 1 7) (fun _ => false) 1 []).1 = [(1, [])] ∧
    ¬ NoEmpty (broadcast_to_user (register [] 1 7) (fun _ => false) 1 []).1 := by
  decide

/-- C3 (amended): across any sequence of register / deregister /
broadcast operations in which each registration adds a fresh connection,
every connection appears at most once in the whole mapping at all times;
registration never creates an empty entry, and a succeeding
deregistration deletes an entry it empties; but broadcast-triggered
pruning can leave an emptied set present in the mapping. -/
theorem registry_at_most_once_invariant :
    (∀ (r : Registry) (ops : List RegOp), AtMostOnce r → FreshOps r ops →
      AtMostOnce (applyOps r ops)) ∧
    (∀ (r : Registry) (uid : Int) (c : Conn), NoEmpty r →
      NoEmpty (register r uid c)) ∧
    (∀ (r : Registry) (uid : Int) (c : Conn) (r' : Registry),
      deregister r uid c = .ok r' → NoEmpty r → NoEmpty r') :=
  ⟨fun _ _ h hf => atMostOnce_applyOps h hf,
   fun _ _ _ h => noEmpty_register h,
   fun _ _ _ _ hd h => noEmpty_deregister hd h⟩

/-- C3 witness: the amended invariants at a concrete operation sequence
(register, broadcast to a dead connection, deregister) and a concrete
registration. -/
theorem registry_at_most_once_invariant_witness :
    AtMostOnce (applyOps [] [RegOp.addConn 1 7,
      RegOp.pushTo 1 (fun _ => false) [], RegOp.dropConn 1 7]) ∧
    NoEmpty (register [(3, [5])] 1 7) :=
  ⟨registry_at_most_once_invariant.1 [] _ (fun _ => Nat.zero_le 1)
      (by
        refine ⟨fun uid c h => ?_, fun uid c h => RegOp.noConfusion h,
          fun uid c h => RegOp.noConfusion h, trivial⟩
        injection h with h1 h2
        subst h2
        exact rfl),
   registry_at_most_once_invariant.2.1 [(3, [5])] 1 7 (by decide)⟩

/-! ## C4: deregistration on session termination -/

/-- C4 (counterexample): a valid session for user 1 on connection 7
receives the inbound message `read:abc`; `int('abc')` raises
`ValueError`, the exception is not `WebSocketDisconnect`, so the handler
ends with the connection still registered — contradicting "on every path
by which an open client session terminates … the connection is
deregistered … before the session handler returns". -/
theorem session_error_no_deregister_cex :
    (websocket_endpoint ⟨[], 1⟩ [] 7 (some (.ok ⟨some "1"⟩))
        [.text "read:abc"]).ending = .raised PyError.valueError ∧
    (websocket_endpoint ⟨[], 1⟩ [] 7 (some (.ok ⟨some "1"⟩))
        [.text "read:abc"]).reg = [(1, [7])] := by
  decide

/-- C4 (amended): the connection is deregistered exactly on the
`WebSocketDisconnect` path (client-initiated close or transport
disconnect): there the handler removes it from the registry before
returning, and if the connection occurred at most once it is absent
afterwards.  An exception raised while handling an inbound message
escapes the handler without deregistering (see the counterexample). -/
theorem disconnect_path_deregisters (uid : Int) (ws : Conn) (db : DB)
    (reg reg' : Registry) (rest : List InMsg)
    (h : deregister reg uid ws = .ok reg') :
    sessionLoop uid ws db reg (.disconnect :: rest) = (db, reg', .normalExit) ∧
    (connCount reg ws ≤ 1 → connCount reg' ws = 0) := by
  constructor
  · simp [sessionLoop, h]
  · intro hle
    have hc := connCount_deregister h ws
    rw [if_pos rfl] at hc
    omega

/-- C4 witness: the amended theorem at the concrete registry
`[(1, [7])]`. -/
theorem disconnect_path_deregisters_witness :
    sessionLoop 1 7 ⟨[], 1⟩ [(1, [7])] [.disconnect] =
      (⟨[], 1⟩, [], .normalExit) ∧
    connCount ([] : Registry) 7 = 0 :=
  ⟨(disconnect_path_deregisters 1 7 ⟨[], 1⟩ [(1, [7])] [] [] (by decide)).1,
   (disconnect_path_deregisters 1 7 ⟨[], 1⟩ [(1, [7])] [] [] (by decide)).2
     (by decide)⟩

end NotificationService
